import Mathlib

/-!
Verification of the oh-no-bot gateway client.

The development shallowly embeds, in Lean, the parts of the C++ sources
that the specification speaks about: the URL hostname extraction of
`src/http_request.cpp`, the supervisor loop and signal handler of
`src/main.cpp`, and — for the gateway engine whose translation unit
(`bot.cpp` and the `command/` encoders, listed in `CMakeLists.txt`) is not
among the available sources, only its header `bot.h` — models built from
the specification's own words.  Machine integers are modelled as `Nat`
with explicit reduction modulo `2 ^ 64` where `std::size_t` overflow
matters.
-/

namespace Ohno

/-! ## Model of `std::size_t` and `std::string` primitives

`get_hostname` in `src/http_request.cpp` uses `std::string::find` (which
returns `std::string::npos` when the needle does not occur) and
`std::string::substr(pos)` (which throws `std::out_of_range` when
`pos > size()`).  Strings are modelled as `List Char`; `size_t`
arithmetic wraps modulo `2 ^ 64`. -/

/-- Modulus of `std::size_t` arithmetic on the target platform. -/
def SIZE_T_MOD : Nat := 2 ^ 64

/-- `std::string::npos`, the largest `size_t` value. -/
def npos : Nat := 2 ^ 64 - 1

/-- Whether `pat` occurs at the very beginning of `s`
(character-by-character comparison, as `std::char_traits::compare`). -/
def leadMatch : List Char → List Char → Bool
  | [], _ => true
  | _ :: _, [] => false
  | p :: ps, c :: cs => p == c && leadMatch ps cs

/-- First index at which `pat` occurs in `s`, if any. -/
def findSub : List Char → List Char → Option Nat
  | [], pat => if leadMatch pat [] then some 0 else none
  | s@(_ :: rest), pat =>
    if leadMatch pat s then some 0 else (findSub rest pat).map (· + 1)

/-- `std::string::find`: the index of the first occurrence of `pat` in
`s`, or `npos` when there is none. -/
def strFind (s pat : List Char) : Nat :=
  match findSub s pat with
  | some i => i
  | none => npos

/-- `std::string::substr(pos)`: the suffix of `s` from `pos`, or `none`
(modelling the thrown `std::out_of_range`) when `pos > size()`. -/
def substrFrom (s : List Char) (pos : Nat) : Option (List Char) :=
  if pos ≤ s.length then some (s.drop pos) else none

/-- The separator literal `"://"` of `get_hostname`. -/
def sepChars : List Char := [':', '/', '/']

/-- Embedding of `get_hostname` (`src/http_request.cpp:175-179`):
`auto const index = url.find("://") + 3; return url.substr(index);`.
The addition is `size_t` addition, hence the reduction modulo
`SIZE_T_MOD`. -/
def get_hostname (url : List Char) : Option (List Char) :=
  let index := (strFind url sepChars + 3) % SIZE_T_MOD
  substrFrom url index

/-! ### Facts about `findSub` -/

theorem leadMatch_length {pat s : List Char} (h : leadMatch pat s = true) :
    pat.length ≤ s.length := by
  induction pat generalizing s with
  | nil => exact Nat.zero_le _
  | cons p ps ih =>
    cases s with
    | nil => simp [leadMatch] at h
    | cons c cs =>
      simp only [leadMatch, Bool.and_eq_true] at h
      simpa [List.length_cons, Nat.succ_le_succ_iff] using ih h.2

theorem findSub_bound {s pat : List Char} {i : Nat}
    (h : findSub s pat = some i) : i + pat.length ≤ s.length := by
  induction s generalizing i with
  | nil =>
    simp only [findSub] at h
    split at h
    · rename_i hm
      cases h
      simpa using leadMatch_length hm
    · exact absurd h (by simp)
  | cons c rest ih =>
    simp only [findSub] at h
    split at h
    · rename_i hm
      cases h
      simpa using leadMatch_length hm
    · rcases Option.map_eq_some'.mp h with ⟨j, hj, rfl⟩
      have := ih hj
      simp only [List.length_cons]
      omega

theorem strFind_of_findSub_some {s pat : List Char} {i : Nat}
    (h : findSub s pat = some i) : strFind s pat = i := by
  unfold strFind
  rw [h]

theorem strFind_of_findSub_none {s pat : List Char}
    (h : findSub s pat = none) : strFind s pat = npos := by
  unfold strFind
  rw [h]

/-! ## Claim C9 -/

/-- C9 counterexample: the claim asserts that on an input containing no
`"://"` the function "does not fail but uses the substring starting at
character index 2".  On the one-character input `"a"` (which contains no
`"://"`) the computed index is `npos + 3 ≡ 2 (mod 2^64)`, yet
`substr(2)` on a string of length 1 throws `std::out_of_range`
(modelled as `none`): the call does fail. -/
theorem get_hostname_short_input_fails :
    findSub ['a'] sepChars = none ∧ get_hostname ['a'] = none := by
  constructor
  · rfl
  · rfl

/-- C9 (amended): `get_hostname` derives the hostname as the substring
following the first occurrence of `"://"`; for an input with no `"://"`,
`find` returns `npos` and `npos + 3` wraps to `2` in `size_t`
arithmetic, so the result is the substring starting at character index 2
whenever the input has at least two characters, while shorter inputs
make `substr` throw `std::out_of_range`. -/
theorem get_hostname_spec (url : List Char)
    (hlen : url.length + 3 < SIZE_T_MOD) :
    (∀ i, findSub url sepChars = some i →
      get_hostname url = some (url.drop (i + 3))) ∧
    (findSub url sepChars = none → 2 ≤ url.length →
      get_hostname url = some (url.drop 2)) ∧
    (findSub url sepChars = none → url.length < 2 →
      get_hostname url = none) := by
  refine ⟨?_, ?_, ?_⟩
  · intro i hi
    have hb : i + 3 ≤ url.length := by
      have := findSub_bound hi
      simpa [sepChars] using this
    have hmod : (strFind url sepChars + 3) % SIZE_T_MOD = i + 3 := by
      rw [strFind_of_findSub_some hi]
      exact Nat.mod_eq_of_lt (by omega)
    simp only [get_hostname, hmod, substrFrom, if_pos hb]
  · intro hn h2
    have hmod : (strFind url sepChars + 3) % SIZE_T_MOD = 2 := by
      rw [strFind_of_findSub_none hn]
      unfold npos SIZE_T_MOD
      decide
    simp only [get_hostname, hmod, substrFrom, if_pos h2]
  · intro hn h2
    have hmod : (strFind url sepChars + 3) % SIZE_T_MOD = 2 := by
      rw [strFind_of_findSub_none hn]
      unfold npos SIZE_T_MOD
      decide
    simp only [get_hostname, hmod, substrFrom]
    rw [if_neg (by omega)]

/-- C9 witness: concrete evaluations of the amended statement.  On
`"wss://gw"` the separator occurs at index 3 and the hostname is `"gw"`;
on `"noscheme"` (no separator, length 8) the result is the mangled
suffix from index 2. -/
theorem get_hostname_spec_witness :
    get_hostname ['w', 's', 's', ':', '/', '/', 'g', 'w']
      = some ['g', 'w'] ∧
    get_hostname ['n', 'o', 's', 'c', 'h', 'e', 'm', 'e']
      = some ['s', 'c', 'h', 'e', 'm', 'e'] := by
  constructor
  · have h := get_hostname_spec ['w', 's', 's', ':', '/', '/', 'g', 'w']
      (by unfold SIZE_T_MOD; decide)
    exact h.1 3 (by decide)
  · have h := get_hostname_spec ['n', 'o', 's', 'c', 'h', 'e', 'm', 'e']
      (by unfold SIZE_T_MOD; decide)
    exact h.2.1 (by decide) (by decide)

/-! ## Model of `src/main.cpp`

`main` checks `argc`, loads the config, performs the bootstrap call,
aborts when the session-start budget is exhausted, arms a one-shot
`signal_set::async_wait` with `handle_signal`, and then loops
`while (!interrupted)`, constructing a fresh `bot` and running the I/O
context on each pass.  The externally-determined outcome of each loop
pass (did `bot` construction throw? did the signal wait complete during
`context_io.run()`, and with what error code?) is an `IterEvent`; the
model folds the loop over a list of such events. -/

/-- Bootstrap payload field, `src/http_request.h` / `get_gateway_bot`. -/
structure SessionStartLimit where
  total : Nat
  remaining : Nat
  reset_after : Nat
  deriving DecidableEq

/-- Result of `get_gateway_bot` (`src/http_request.cpp:200-243`). -/
structure GetGatewayBotResult where
  url : List Char
  shards : Nat
  session_start_limit : SessionStartLimit
  deriving DecidableEq

def EXIT_SUCCESS : Nat := 0
def EXIT_FAILURE : Nat := 1

/-- Embedding of `handle_signal` (`src/main.cpp:56-72`): given the
error code of the completed signal wait and the current value of
`interrupted`, returns the new value of `interrupted` and whether
`bot->stop()` was invoked.  On error the handler logs and returns
without touching either. -/
def handle_signal (error : Bool) (interrupted : Bool) : Bool × Bool :=
  if error then (interrupted, false) else (true, true)

/-- Externally-determined outcome of one pass of the supervisor loop. -/
inductive IterEvent
  /-- `new qyzk::ohno::bot(...)` threw (`src/main.cpp:149-155`). -/
  | botInitFails
  /-- The bot was constructed and `context_io.run()` returned; `sig` is
  `some e` when the signal wait completed during this run with error
  flag `e` (running `handle_signal`), `none` when it did not. -/
  | runReturns (sig : Option Bool)
  deriving DecidableEq

/-- Observable outcome of `main`: exit code (`none` while the loop is
still running), number of `bot` instances constructed (each construction
is followed by `async_listen_event`, i.e. a gateway connection attempt),
number of `bot->stop()` calls, and the error log lines. -/
structure MainOutcome where
  exitCode : Option Nat
  connections : Nat
  stopCalls : Nat
  logs : List String
  deriving DecidableEq

/-- The `while (!interrupted)` loop of `main`
(`src/main.cpp:139-159`): when `interrupted` is set the loop exits and
`main` returns `EXIT_SUCCESS`; otherwise a `bot` is constructed (a
throwing constructor returns `EXIT_FAILURE`), `context_io.run()` is
entered, and any signal delivered during the run goes through
`handle_signal` before the loop condition is re-checked. -/
def supervisorLoop : List IterEvent → Bool → Nat → Nat → MainOutcome
  | _, true, cons, stops => ⟨some EXIT_SUCCESS, cons, stops, []⟩
  | [], false, cons, stops => ⟨none, cons, stops, []⟩
  | IterEvent.botInitFails :: _, false, cons, stops =>
    ⟨some EXIT_FAILURE, cons, stops, []⟩
  | IterEvent.runReturns sig :: rest, false, cons, stops =>
    match sig with
    | none => supervisorLoop rest false (cons + 1) stops
    | some e =>
      let r := handle_signal e false
      supervisorLoop rest r.1 (cons + 1)
        (if r.2 then stops + 1 else stops)

/-- The message logged at `src/main.cpp:121` when the session budget is
exhausted; the code prints `reset_after / 1000` (integer division). -/
def budgetMessage (reset_after : Nat) : String :=
  "no session is remaining try after " ++ toString (reset_after / 1000)
    ++ " seconds"

/-- Embedding of `main` (`src/main.cpp:76-162`): usage check, config
load, budget check against the bootstrap result, then the supervisor
loop.  `configOk` abstracts whether `qyzk::ohno::config`'s constructor
threw on the loaded JSON. -/
def mainModel (argc : Nat) (configOk : Bool)
    (bootstrap : GetGatewayBotResult) (events : List IterEvent) :
    MainOutcome :=
  if argc ≠ 2 then ⟨some EXIT_FAILURE, 0, 0, []⟩
  else if !configOk then ⟨some EXIT_FAILURE, 0, 0, []⟩
  else if bootstrap.session_start_limit.remaining = 0 then
    ⟨some EXIT_FAILURE, 0, 0,
      [budgetMessage bootstrap.session_start_limit.reset_after]⟩
  else supervisorLoop events false 0 0

/-- Outcome of the fallible pre-loop startup phase of `main`
(`src/main.cpp:116-117`): `resolve` and `get_gateway_bot` either
deliver a bootstrap result or throw (`hostname_resolve_error`,
connection, TLS, HTTP send/receive or response-parse errors from
`src/http_request.cpp`).  `main` wraps neither call in a try block. -/
inductive BootstrapOutcome
  | ok (result : GetGatewayBotResult)
  | throws
  deriving DecidableEq

/-- Observable termination status of the process.  `returned code` is a
normal return from `main`; `terminated` models an exception escaping
`main`'s body: the C++ runtime calls `std::terminate`, which aborts the
process, and the operating system reports a non-zero wait status
(SIGABRT), never a zero exit code; `running` means the supervisor loop
has not ended. -/
inductive ProcStatus
  | running
  | returned (code : Nat)
  | terminated
  deriving DecidableEq

/-- Whether a termination status is a failure as observed by the
operator: a non-zero return code, or the non-zero wait status of an
aborted process. -/
def isFailureStatus : ProcStatus → Bool
  | ProcStatus.running => false
  | ProcStatus.returned code => code != 0
  | ProcStatus.terminated => true

/-- Embedding of `main` (`src/main.cpp:76-162`) including the fallible
startup phase: usage check, config load, then the `resolve` /
`get_gateway_bot` calls — whose uncaught throw ends the process via
`std::terminate` — and on bootstrap success the budget check and
supervisor loop of `mainModel`. -/
def mainEntry (argc : Nat) (configOk : Bool)
    (bootstrap : BootstrapOutcome) (events : List IterEvent) :
    ProcStatus :=
  if argc ≠ 2 then ProcStatus.returned EXIT_FAILURE
  else if !configOk then ProcStatus.returned EXIT_FAILURE
  else
    match bootstrap with
    | BootstrapOutcome.throws => ProcStatus.terminated
    | BootstrapOutcome.ok b =>
      match (mainModel argc configOk b events).exitCode with
      | some code => ProcStatus.returned code
      | none => ProcStatus.running

/-! ### Facts about the supervisor loop -/

theorem supervisorLoop_skip_normal (n : Nat) (evs : List IterEvent)
    (c s : Nat) :
    supervisorLoop
        (List.replicate n (IterEvent.runReturns none) ++ evs) false c s
      = supervisorLoop evs false (c + n) s := by
  induction n generalizing c with
  | zero => simp
  | succ m ih =>
    rw [List.replicate_succ, List.cons_append]
    show supervisorLoop _ false (c + 1) s = _
    rw [ih]
    congr 1
    omega

/-! ## Claim C3 -/

/-- C3: when the bootstrap result reports
`session_start_limit.remaining == 0`, `main` returns `EXIT_FAILURE`
(non-zero) before any `bot` is constructed — zero gateway connection
attempts — and the only error log line carries `reset_after`
(printed as `reset_after / 1000` seconds, `src/main.cpp:118-124`). -/
theorem budget_exhausted_aborts_startup
    (bootstrap : GetGatewayBotResult) (events : List IterEvent)
    (h : bootstrap.session_start_limit.remaining = 0) :
    mainModel 2 true bootstrap events
      = ⟨some EXIT_FAILURE, 0, 0,
          [budgetMessage bootstrap.session_start_limit.reset_after]⟩ ∧
    EXIT_FAILURE ≠ 0 := by
  refine ⟨?_, by decide⟩
  simp [mainModel, h]

/-- C3 witness: a concrete bootstrap result with `remaining = 0` and
`reset_after = 42000` exits with code 1, makes no connection attempt,
and logs the 42-second wait. -/
theorem budget_exhausted_aborts_startup_witness :
    mainModel 2 true ⟨[], 1, ⟨1000, 0, 42000⟩⟩
        [IterEvent.runReturns none]
      = ⟨some 1, 0, 0,
          ["no session is remaining try after 42 seconds"]⟩ := by
  have h := budget_exhausted_aborts_startup ⟨[], 1, ⟨1000, 0, 42000⟩⟩
    [IterEvent.runReturns none] rfl
  exact h.1

/-! ## Claim C4 -/

/-- C4: the supervisor loop reconstructs the `bot` after every engine
termination while not interrupted (after `n` uneventful runs the loop
has made `n` constructions and is still running); a successfully
delivered operator signal sets `interrupted`, calls `bot->stop()`, and
ends the loop with `EXIT_SUCCESS = 0` with no further construction;
and every startup failure ends the process with a non-zero status:
a `bot` constructor failure, a wrong argument count and a config
failure return `EXIT_FAILURE ≠ 0`, a throwing bootstrap phase
(`resolve` / `get_gateway_bot`, uncaught in `main`) ends in
`std::terminate` — an abnormal, operator-visible failure status — and
an exhausted session budget returns `EXIT_FAILURE` as well. -/
theorem supervisor_restart_and_shutdown (n : Nat)
    (post rest : List IterEvent) (c s argc : Nat) (cfg : Bool)
    (b : GetGatewayBotResult) (bs : BootstrapOutcome)
    (ev : List IterEvent) (u : List Char) (sh t ra : Nat)
    (ha : argc ≠ 2) :
    supervisorLoop (List.replicate n (IterEvent.runReturns none)) false c s
      = ⟨none, c + n, s, []⟩ ∧
    supervisorLoop
        (List.replicate n (IterEvent.runReturns none)
          ++ IterEvent.runReturns (some false) :: post) false c s
      = ⟨some EXIT_SUCCESS, c + n + 1, s + 1, []⟩ ∧
    supervisorLoop (IterEvent.botInitFails :: rest) false c s
      = ⟨some EXIT_FAILURE, c, s, []⟩ ∧
    (mainModel argc cfg b ev).exitCode = some EXIT_FAILURE ∧
    (mainModel 2 false b ev).exitCode = some EXIT_FAILURE ∧
    mainEntry argc cfg bs ev = ProcStatus.returned EXIT_FAILURE ∧
    mainEntry 2 false bs ev = ProcStatus.returned EXIT_FAILURE ∧
    mainEntry 2 true BootstrapOutcome.throws ev
      = ProcStatus.terminated ∧
    isFailureStatus (mainEntry 2 true BootstrapOutcome.throws ev)
      = true ∧
    mainEntry 2 true (BootstrapOutcome.ok ⟨u, sh, ⟨t, 0, ra⟩⟩) ev
      = ProcStatus.returned EXIT_FAILURE ∧
    EXIT_SUCCESS = 0 ∧ EXIT_FAILURE ≠ 0 := by
  refine ⟨?_, ?_, ?_, ?_, ?_, ?_, ?_, ?_, ?_, ?_, rfl, by decide⟩
  · have h := supervisorLoop_skip_normal n [] c s
    simpa [supervisorLoop] using h
  · rw [supervisorLoop_skip_normal]
    simp [supervisorLoop, handle_signal]
  · simp [supervisorLoop]
  · simp [mainModel, ha]
  · simp [mainModel]
  · simp [mainEntry, ha]
  · simp [mainEntry]
  · simp [mainEntry]
  · simp [mainEntry, isFailureStatus]
  · simp [mainEntry, mainModel]

/-- C4 witness: two uneventful engine terminations cause two
reconstructions with the loop still running; a third run interrupted by
a cleanly delivered signal stops the bot once and exits with code 0;
a failing constructor exits with code 1, as do `argc = 1`, a bad config
and an exhausted budget; a throwing bootstrap ends the process in
`std::terminate`, a failure status. -/
theorem supervisor_restart_and_shutdown_witness :
    supervisorLoop (List.replicate 2 (IterEvent.runReturns none))
        false 0 0 = ⟨none, 2, 0, []⟩ ∧
    supervisorLoop
        (List.replicate 2 (IterEvent.runReturns none)
          ++ IterEvent.runReturns (some false)
            :: [IterEvent.runReturns none]) false 0 0
      = ⟨some 0, 3, 1, []⟩ ∧
    supervisorLoop [IterEvent.botInitFails] false 0 0
      = ⟨some 1, 0, 0, []⟩ ∧
    (mainModel 1 true ⟨[], 1, ⟨1000, 5, 0⟩⟩ []).exitCode = some 1 ∧
    (mainModel 2 false ⟨[], 1, ⟨1000, 5, 0⟩⟩ []).exitCode = some 1 ∧
    mainEntry 1 true BootstrapOutcome.throws []
      = ProcStatus.returned 1 ∧
    mainEntry 2 false BootstrapOutcome.throws []
      = ProcStatus.returned 1 ∧
    mainEntry 2 true BootstrapOutcome.throws []
      = ProcStatus.terminated ∧
    isFailureStatus (mainEntry 2 true BootstrapOutcome.throws [])
      = true ∧
    mainEntry 2 true (BootstrapOutcome.ok ⟨[], 1, ⟨1000, 0, 7000⟩⟩) []
      = ProcStatus.returned 1 := by
  have h := supervisor_restart_and_shutdown 2 [IterEvent.runReturns none]
    [] 0 0 1 true ⟨[], 1, ⟨1000, 5, 0⟩⟩ BootstrapOutcome.throws []
    [] 1 1000 7000 (by decide)
  exact ⟨h.1, h.2.1, h.2.2.1, h.2.2.2.1, h.2.2.2.2.1,
    h.2.2.2.2.2.1, h.2.2.2.2.2.2.1, h.2.2.2.2.2.2.2.1,
    h.2.2.2.2.2.2.2.2.1, h.2.2.2.2.2.2.2.2.2.1⟩

/-! ## Claim C10 -/

/-- C10: when the asynchronous signal wait completes with an error,
`handle_signal` returns without setting `interrupted` and without
calling `bot->stop()`; since `signals.async_wait` is armed exactly once
(`src/main.cpp:130-137`), the supervisor loop then keeps reconstructing
the bot through every later engine termination — still running with
zero `stop()` calls — so the graceful-shutdown path is gone for the
rest of the process lifetime. -/
theorem failed_signal_wait_loses_shutdown (b : Bool) (n c s : Nat) :
    handle_signal true b = (b, false) ∧
    supervisorLoop
        (IterEvent.runReturns (some true)
          :: List.replicate n (IterEvent.runReturns none)) false c s
      = ⟨none, c + 1 + n, s, []⟩ := by
  refine ⟨rfl, ?_⟩
  show supervisorLoop _ false (c + 1) s = _
  have h := supervisorLoop_skip_normal n [] (c + 1) s
  simpa [supervisorLoop] using h

/-! ## Model of the gateway engine

`CMakeLists.txt` compiles `src/bot.cpp`, `src/event.cpp`,
`src/opcode.cpp` and `src/command/{heartbeat,identify,resume}.cpp`, but
of the engine only the class header (`bot.h`) is among the available
sources; the member function bodies are missing.  The definitions below
are therefore modelled from the specification's own words (§3 Session,
§4.1 Wire Codec, §4.3 Heartbeat Scheduler, §4.4 state machine, §8),
carrying the member names declared in `bot.h` where they exist. -/

/-- The Session of spec §3: `{session_id: opaque string | absent,
last_sequence: integer | absent}`. -/
structure Session where
  session_id : Option String
  last_sequence : Option Nat
  deriving DecidableEq

/-- Modelled from the spec: the body of `bot::set_event_sequence`
(declared at `bot.h` line 37, definition not among the sources).
Spec §4.4 `READY → READY`: "update `last_sequence` (only if the frame's
sequence is present and not smaller than the current value — out-of-order
or duplicate frames are ignored for sequence-tracking purposes)". -/
def set_event_sequence (current : Option Nat) (sequence : Nat) :
    Option Nat :=
  match current with
  | none => some sequence
  | some c => if sequence < c then some c else some sequence

/-- The stored `last_sequence` after a run of Dispatch frames whose
sequence values are `seqs`, processed in order while in `READY`. -/
def processDispatchRun (init : Option Nat) (seqs : List Nat) :
    Option Nat :=
  seqs.foldl set_event_sequence init

/-- Modelled from the spec: the body of `bot::is_resuming`
(declared at `bot.h` line 39, definition not among the sources).
Spec §3: "a Session with both fields present is eligible for resume; an
absent `session_id` forces fresh identify". -/
def is_resuming (s : Session) : Bool :=
  s.session_id.isSome && s.last_sequence.isSome

/-- The authentication command sent on leaving `AWAITING_HELLO`. -/
inductive AuthCommand
  | identify
  | resume
  deriving DecidableEq

/-- Modelled from the spec: the branch taken on receiving Hello
(spec §4.4 `AWAITING_HELLO → AUTHENTICATING`): "if the current Session
has both `session_id` and `last_sequence`, send Resume; otherwise send
Identify". -/
def commandOnHello (s : Session) : AuthCommand :=
  if is_resuming s then AuthCommand.resume else AuthCommand.identify

/-- Error kinds of the Wire Codec (spec §4.1). -/
inductive CodecError
  | missingSessionId
  | missingLastSequence
  deriving DecidableEq

/-- The encoded Resume command, spec §6: `{op:6, d:{token, session_id,
seq}}`. -/
structure ResumeFrame where
  op : Nat
  token : String
  session_id : String
  seq : Nat
  deriving DecidableEq

/-- Modelled from the spec: the Resume encoder
(`src/command/resume.cpp`, not among the sources).  Spec §4.1: "Resume
command carries: token, `session_id`, `last_sequence` — both drawn from
the Session; encoding MUST fail fast (error, not silent corruption) if
the Session lacks either field". -/
def encodeResume (token : String) (s : Session) :
    Except CodecError ResumeFrame :=
  match s.session_id with
  | none => Except.error CodecError.missingSessionId
  | some sid =>
    match s.last_sequence with
    | none => Except.error CodecError.missingLastSequence
    | some seq => Except.ok ⟨6, token, sid, seq⟩

/-- Modelled from the spec: Invalid-Session handling (spec §3 and §4.4
`AUTHENTICATING → DISCONNECTED`): the Session is "invalidated (both
fields cleared) on an Invalid-Session frame whose `resumable` flag is
false", and kept unchanged when the flag is true. -/
def onInvalidSession (resumable : Bool) (s : Session) : Session :=
  if resumable then s else ⟨none, none⟩

/-- Per-connection heartbeat state (spec §3 ConnectionContext). -/
structure ConnState where
  ackPending : Bool
  transportOpen : Bool
  zombied : Bool
  last_sequence : Option Nat
  deriving DecidableEq

/-- Observable actions of the Heartbeat Scheduler on a tick. -/
inductive HBAction
  | sendHeartbeat (seq : Option Nat)
  | forceCloseTransport
  | reconnect
  | reschedule
  deriving DecidableEq

/-- Modelled from the spec: the heartbeat tick handler
(`bot::async_start_heartbeat` / `bot::beat`, declared at `bot.h` lines
25-26, definitions not among the sources).  Spec §4.3: "on each tick, if
the previous heartbeat's ack-pending flag is still set (no
Heartbeat-ACK frame arrived since the last tick), the connection is
declared zombied: the Scheduler signals the Engine to force-close the
transport and proceed through the reconnect path — it does not itself
retry heartbeats on a suspect connection.  Otherwise it sends a new
Heartbeat frame, sets ack-pending, and reschedules". -/
def onHeartbeatTick (st : ConnState) : ConnState × List HBAction :=
  if st.ackPending then
    ({ st with zombied := true, transportOpen := false },
      [HBAction.forceCloseTransport, HBAction.reconnect])
  else
    ({ st with ackPending := true },
      [HBAction.sendHeartbeat st.last_sequence, HBAction.reschedule])

/-- Modelled from the spec: receipt of a Heartbeat-ACK frame clears the
ack-pending flag (spec §4.3). -/
def onHeartbeatAck (st : ConnState) : ConnState :=
  { st with ackPending := false }

/-- Reasons for a graceful close (spec §4.4 `READY → CLOSING →
DISCONNECTED`). -/
inductive CloseReason
  | serverReconnect
  | operatorStop
  deriving DecidableEq

/-- Ordered shutdown actions of a graceful close. -/
inductive CloseAction
  | stopHeartbeat
  | closeTransport
  deriving DecidableEq

/-- Modelled from the spec: the graceful close path (`bot::disconnect` /
`bot::stop`, declared at `bot.h` lines 24 and 32, definitions not among
the sources).  Spec §4.4: on server Reconnect or operator stop, the
"Heartbeat Scheduler is stopped before the transport is closed, in that
order". -/
def gracefulClose (_reason : CloseReason) : List CloseAction :=
  [CloseAction.stopHeartbeat, CloseAction.closeTransport]

/-! ### Facts about sequence tracking -/

theorem set_event_sequence_eq_max (c a : Nat) :
    set_event_sequence (some c) a = some (max c a) := by
  simp only [set_event_sequence]
  split
  · rename_i h
    rw [Nat.max_eq_left (Nat.le_of_lt h)]
  · rename_i h
    rw [Nat.max_eq_right (Nat.le_of_not_lt h)]

theorem processDispatchRun_some (seqs : List Nat) (c : Nat) :
    processDispatchRun (some c) seqs = some (seqs.foldl max c) := by
  induction seqs generalizing c with
  | nil => rfl
  | cons a l ih =>
    have hstep : processDispatchRun (some c) (a :: l)
        = processDispatchRun (set_event_sequence (some c) a) l := rfl
    rw [hstep, set_event_sequence_eq_max, List.foldl_cons]
    exact ih (max c a)

/-! ## Claim C1 -/

/-- C1: the stored `last_sequence` is a high-water mark: a Dispatch
frame whose sequence is smaller than the stored value leaves it
unchanged, and after any run of Dispatch frames in `READY` the stored
value is the maximum of the initial value and every sequence seen
(with no prior value, the maximum of the sequences seen). -/
theorem sequence_never_rewound (c s : Nat) (seqs : List Nat)
    (h : s < c) :
    set_event_sequence (some c) s = some c ∧
    processDispatchRun (some c) seqs = some (seqs.foldl max c) ∧
    (∀ s0 rest, processDispatchRun none (s0 :: rest)
      = some (rest.foldl max s0)) := by
  refine ⟨?_, processDispatchRun_some seqs c, ?_⟩
  · simp [set_event_sequence, h]
  · intro s0 rest
    have hstep : processDispatchRun none (s0 :: rest)
        = processDispatchRun (some s0) rest := rfl
    rw [hstep]
    exact processDispatchRun_some rest s0

/-- C1 witness: with stored sequence 5, the duplicate frame 3 is
ignored, the run `[7, 2]` advances the store to the maximum 7, and from
an empty store the run `[1, 4, 2]` yields 4. -/
theorem sequence_never_rewound_witness :
    set_event_sequence (some 5) 3 = some 5 ∧
    processDispatchRun (some 5) [7, 2] = some 7 ∧
    processDispatchRun none [1, 4, 2] = some 4 := by
  have h := sequence_never_rewound 5 3 [7, 2] (by decide)
  exact ⟨h.1, h.2.1.trans (by decide), (h.2.2 1 [4, 2]).trans (by decide)⟩

/-! ## Claim C2 -/

/-- C2: on the transition out of `AWAITING_HELLO` the engine sends
Resume exactly when the Session has both `session_id` and
`last_sequence` present; in every other case it sends Identify. -/
theorem hello_resume_iff_full_session (s : Session) :
    (commandOnHello s = AuthCommand.resume ↔
      s.session_id.isSome = true ∧ s.last_sequence.isSome = true) ∧
    (commandOnHello s = AuthCommand.identify ↔
      ¬(s.session_id.isSome = true ∧ s.last_sequence.isSome = true)) := by
  obtain ⟨sid, seq⟩ := s
  cases sid <;> cases seq <;> simp [commandOnHello, is_resuming]

/-- C2 witness: a full Session resumes; each of the three deficient
Sessions identifies. -/
theorem hello_resume_iff_full_session_witness :
    commandOnHello ⟨some "abc", some 1⟩ = AuthCommand.resume ∧
    commandOnHello ⟨some "abc", none⟩ = AuthCommand.identify ∧
    commandOnHello ⟨none, some 1⟩ = AuthCommand.identify ∧
    commandOnHello ⟨none, none⟩ = AuthCommand.identify := by
  have h1 := hello_resume_iff_full_session ⟨some "abc", some 1⟩
  have h2 := hello_resume_iff_full_session ⟨some "abc", none⟩
  have h3 := hello_resume_iff_full_session ⟨none, some 1⟩
  have h4 := hello_resume_iff_full_session ⟨none, none⟩
  exact ⟨h1.1.mpr ⟨rfl, rfl⟩, h2.2.mpr (by simp), h3.2.mpr (by simp),
    h4.2.mpr (by simp)⟩

/-! ## Claim C5 -/

/-- C5: a tick that still finds the ack-pending flag set declares the
connection zombied and force-closes the transport, emits exactly the
force-close and reconnect signals — in particular no Heartbeat frame is
sent on the suspect connection — and this is precisely the fate of any
connection that receives no Heartbeat-ACK between two consecutive
ticks. -/
theorem missed_ack_zombies_connection (st : ConnState)
    (h : st.ackPending = true) :
    (onHeartbeatTick st).1.zombied = true ∧
    (onHeartbeatTick st).1.transportOpen = false ∧
    (onHeartbeatTick st).2
      = [HBAction.forceCloseTransport, HBAction.reconnect] ∧
    (∀ q ∈ (onHeartbeatTick st).2, ∀ sq,
      q ≠ HBAction.sendHeartbeat sq) ∧
    (∀ st2 : ConnState, st2.ackPending = false →
      (onHeartbeatTick (onHeartbeatTick st2).1).2
        = [HBAction.forceCloseTransport, HBAction.reconnect]) := by
  refine ⟨?_, ?_, ?_, ?_, ?_⟩
  · simp [onHeartbeatTick, h]
  · simp [onHeartbeatTick, h]
  · simp [onHeartbeatTick, h]
  · intro q hq sq
    simp [onHeartbeatTick, h] at hq
    rcases hq with rfl | rfl <;> simp
  · intro st2 h2
    simp [onHeartbeatTick, h2]

/-- C5 witness: an open, acked-pending connection with stored sequence
5 is zombied on the tick; a fresh connection that gets no ack between
its first and second ticks meets the same fate. -/
theorem missed_ack_zombies_connection_witness :
    (onHeartbeatTick ⟨true, true, false, some 5⟩).1.zombied = true ∧
    (onHeartbeatTick ⟨true, true, false, some 5⟩).2
      = [HBAction.forceCloseTransport, HBAction.reconnect] ∧
    (onHeartbeatTick
        (onHeartbeatTick ⟨false, true, false, none⟩).1).2
      = [HBAction.forceCloseTransport, HBAction.reconnect] := by
  have h := missed_ack_zombies_connection ⟨true, true, false, some 5⟩ rfl
  exact ⟨h.1, h.2.2.1, h.2.2.2.2 ⟨false, true, false, none⟩ rfl⟩

/-! ## Claim C6 -/

/-- C6: encoding a Resume command fails with an error whenever the
Session lacks `session_id` or `last_sequence`, and for every Session
with both fields present it succeeds with a frame carrying the token,
the `session_id` and the `last_sequence`. -/
theorem encode_resume_total_spec (tok : String) (s : Session) :
    ((s.session_id = none ∨ s.last_sequence = none) →
      ∃ e, encodeResume tok s = Except.error e) ∧
    (∀ sid seq, s.session_id = some sid → s.last_sequence = some seq →
      encodeResume tok s = Except.ok ⟨6, tok, sid, seq⟩) := by
  obtain ⟨sid, seq⟩ := s
  constructor
  · intro h
    cases sid with
    | none => exact ⟨CodecError.missingSessionId, rfl⟩
    | some a =>
      cases seq with
      | none => exact ⟨CodecError.missingLastSequence, rfl⟩
      | some b => simp at h
  · intro sid2 sq2 h1 h2
    cases sid <;> cases seq <;> simp_all [encodeResume]

/-- C6 witness: a full Session encodes to the op-6 frame carrying
token, id and sequence; a Session without an id fails with an error. -/
theorem encode_resume_total_spec_witness :
    encodeResume "tok" ⟨some "abc", some 1⟩
      = Except.ok ⟨6, "tok", "abc", 1⟩ ∧
    (∃ e, encodeResume "tok" ⟨none, some 1⟩ = Except.error e) := by
  have h1 := encode_resume_total_spec "tok" ⟨some "abc", some 1⟩
  have h2 := encode_resume_total_spec "tok" ⟨none, some 1⟩
  exact ⟨h1.2 "abc" 1 rfl rfl, h2.1 (Or.inl rfl)⟩

/-! ## Claim C7 -/

/-- C7: an Invalid-Session frame whose resumable flag is false clears
the Session entirely — both fields become absent — so the branch taken
on the next Hello is Identify, never Resume. -/
theorem invalid_session_clears_session (s : Session) :
    (onInvalidSession false s).session_id = none ∧
    (onInvalidSession false s).last_sequence = none ∧
    commandOnHello (onInvalidSession false s)
      = AuthCommand.identify := by
  simp [onInvalidSession, commandOnHello, is_resuming]

/-! ## Claim C8 -/

/-- C8: on every graceful close — server Reconnect or operator stop —
the Heartbeat Scheduler's `stop()` appears strictly before the
transport close in the emitted action sequence, and never in the
opposite order. -/
theorem graceful_close_stop_before_close (r : CloseReason) :
    gracefulClose r
      = [CloseAction.stopHeartbeat, CloseAction.closeTransport] ∧
    (∀ i j, (gracefulClose r).get? i = some CloseAction.stopHeartbeat →
      (gracefulClose r).get? j = some CloseAction.closeTransport →
      i < j) := by
  refine ⟨rfl, ?_⟩
  intro i j hi hj
  have hi0 : i = 0 := by
    match i with
    | 0 => rfl
    | 1 => simp [gracefulClose] at hi
    | n + 2 => simp [gracefulClose] at hi
  have hj1 : j = 1 := by
    match j with
    | 0 => simp [gracefulClose] at hj
    | 1 => rfl
    | n + 2 => simp [gracefulClose] at hj
  omega

/-- C8 witness: on the server-Reconnect path the emitted sequence is
exactly stop-then-close, and the indices of the two actions are in
strict order. -/
theorem graceful_close_stop_before_close_witness :
    gracefulClose CloseReason.serverReconnect
      = [CloseAction.stopHeartbeat, CloseAction.closeTransport] ∧
    (0 : Nat) < 1 := by
  have h := graceful_close_stop_before_close CloseReason.serverReconnect
  exact ⟨h.1, h.2 0 1 rfl rfl⟩

end Ohno
